import Mathlib

/-!
Verification development for the ClimaBill multi-tenant carbon-accounting
application. The client-side code (React components under frontend/src) is
shallowly embedded below: each definition mirrors one handler or helper of
the source, with browser storage and the in-memory auth context made into
explicit state. The server-side request authorizer is not part of the
source tree; it is modelled from the specification where needed, and every
such definition is marked accordingly.

Modelling conventions:
- Browser localStorage is a record of the four climabill_* keys the app uses.
- A value persisted with JSON.stringify is `StoredJson.ofData s`, where `s`
  abstracts the serialized object; `StoredJson.malformed raw` covers an
  externally corrupted entry that JSON.parse rejects (JSON.parse throws on
  it, succeeds on every `ofData`).
- Numeric form fields are modelled by the numeric values their parseInt /
  parseFloat calls produce (`Option` when the JS code applies a `|| default`
  fallback first); JavaScript number arithmetic where division by zero
  matters is modelled exactly by `JsNum` (extended rationals with NaN),
  ignoring floating-point rounding and signed zero.
- Date formatting (toISOString) is modelled as the identity on the date
  strings held in form state.
-/

namespace ClimaBill

/-- JavaScript logical-or defaulting on a possibly absent string, as in
`x || "fallback"`: an absent value and the empty string (the only falsy
string) both select the fallback. -/
def jsOrString (x : Option String) (d : String) : String :=
  match x with
  | none => d
  | some s => if s = "" then d else s

/-- A value read from or written to browser localStorage by the app.
`ofData s` is the JSON.stringify serialization of the object abstracted as
`s`; `malformed raw` is an externally corrupted entry whose text JSON.parse
rejects. -/
inductive StoredJson where
  | ofData (s : String)
  | malformed (raw : String)
deriving DecidableEq

/-- JSON.parse on a stored value: succeeds exactly on well-formed entries. -/
def parseJson : StoredJson → Option String
  | .ofData s => some s
  | .malformed _ => none

/-- JavaScript truthiness of a stored string: only the empty string is
falsy, and the empty string is never valid JSON, so every `ofData` value is
truthy. -/
def StoredJson.jsTruthy : StoredJson → Bool
  | .ofData _ => true
  | .malformed raw => raw != ""

/-- The localStorage entries the application reads and writes
(AuthContext.js, Auth.js, App.js, Navbar.js). -/
structure Storage where
  climabill_token : Option String
  climabill_user : Option StoredJson
  climabill_tenant : Option StoredJson
  climabill_company_id : Option String
deriving DecidableEq

/-- The in-memory auth context state (AuthContext.js useState hooks). -/
structure Session where
  token : Option String
  user : Option String
  tenant : Option String
deriving DecidableEq

/-- Storage with every climabill_* key removed. -/
def emptyStorage : Storage := ⟨none, none, none, none⟩

/-- The auth context with token, user and tenant all null. -/
def nullSession : Session := ⟨none, none, none⟩

/-- The access_token, user and tenant payload returned by the auth API and
passed to the login helper (AuthContext.js line 41). -/
structure AuthResult where
  access_token : String
  user : String
  tenant : String
deriving DecidableEq

/-- Embeds `login` from AuthContext.js lines 41-49: sets the in-memory
token, user and tenant and persists all three to localStorage. -/
def contextLogin (st : Storage) (authData : AuthResult) : Storage × Session :=
  ({ st with
      climabill_token := some authData.access_token,
      climabill_user := some (.ofData authData.user),
      climabill_tenant := some (.ofData authData.tenant) },
   ⟨some authData.access_token, some authData.user, some authData.tenant⟩)

/-- Embeds `logout` from AuthContext.js lines 51-60: nulls the in-memory
token, user and tenant and removes all four climabill_* localStorage keys. -/
def logout : Storage × Session := (emptyStorage, nullSession)

/-- Embeds the mount-time restore effect from AuthContext.js lines 23-39:
when all three saved entries are present (and truthy) the token is set and
the user and tenant are JSON.parsed; a parse failure is caught and answered
with `logout()`. -/
def restoreAuth (st : Storage) (s : Session) : Storage × Session :=
  match st.climabill_token, st.climabill_user, st.climabill_tenant with
  | some t, some u, some te =>
    if t != "" && u.jsTruthy && te.jsTruthy then
      match parseJson u, parseJson te with
      | some uo, some teo => (st, ⟨some t, some uo, some teo⟩)
      | _, _ => logout
    else (st, s)
  | _, _, _ => (st, s)

/-- The `options` argument of authenticatedFetch: method and extra headers
supplied by the caller (body content is irrelevant to the header claims). -/
structure FetchOptions where
  method : String
  headers : List (String × String)
deriving DecidableEq

/-- An HTTP request as the client code builds it: method, URL and the
headers the code itself supplies. -/
structure SentRequest where
  method : String
  url : String
  headers : List (String × String)
deriving DecidableEq

/-- What an authenticatedFetch call does: either it throws a message (to
the caller) or it completes with the response status. -/
inductive FetchOutcome where
  | thrown (msg : String)
  | completed (status : Nat)
deriving DecidableEq

/-- Embeds `authenticatedFetch` from AuthContext.js lines 63-90. With no
token it throws before any request is issued. Otherwise it merges the
default Content-Type and Authorization Bearer headers with the
caller-supplied ones (caller entries win, as with object spread), issues
the request, and on a 401 response calls `logout()` and throws. Inputs: the
current storage and session, the url and options, and the status of the
response the network returns. Outputs: the request issued (none when it
throws first), the outcome, and the updated storage and session. -/
def authenticatedFetch (st : Storage) (s : Session) (url : String)
    (opts : FetchOptions) (respStatus : Nat) :
    Option SentRequest × FetchOutcome × Storage × Session :=
  match s.token with
  | none => (none, .thrown "No authentication token available", st, s)
  | some tok =>
    let defaultHeaders : List (String × String) :=
      [("Content-Type", "application/json"), ("Authorization", "Bearer " ++ tok)]
    let mergedHeaders :=
      defaultHeaders.filter (fun p => (opts.headers.lookup p.1).isNone) ++ opts.headers
    let req : SentRequest := ⟨opts.method, url, mergedHeaders⟩
    if respStatus = 401 then
      (some req, .thrown "Authentication expired", logout.1, logout.2)
    else
      (some req, .completed respStatus, st, s)

/-! Requests the domain components issue with the plain `fetch` API. Each
builder records exactly the method, URL and headers the source supplies. -/

/-- The request of `fetchDashboardData` (Dashboard.js line 19): a plain GET
with no caller-supplied headers. -/
def dashboardRequest (api companyId : String) : SentRequest :=
  ⟨"GET", api ++ "/companies/" ++ companyId ++ "/dashboard", []⟩

/-- The record-creation request of `handleCalculateEmissions`
(EmissionsTracker.js lines 136-140): POST with only a Content-Type header. -/
def addEmissionRequest (api companyId : String) : SentRequest :=
  ⟨"POST", api ++ "/companies/" ++ companyId ++ "/emissions",
   [("Content-Type", "application/json")]⟩

/-- The initiative-creation request of `handleAddInitiative`
(FinancialImpact.js lines 57-71): POST with only a Content-Type header. -/
def addInitiativeRequest (api companyId : String) : SentRequest :=
  ⟨"POST", api ++ "/companies/" ++ companyId ++ "/initiatives",
   [("Content-Type", "application/json")]⟩

/-- The purchase request of `handlePurchase` (CarbonMarketplace.js lines
56-64): POST with only a Content-Type header. -/
def purchaseRequest (api : String) : SentRequest :=
  ⟨"POST", api ++ "/marketplace/purchase", [("Content-Type", "application/json")]⟩

/-- The supplier-creation request of `handleAddSupplier`
(SupplyChainVisibility.js lines 83-92): POST with only a Content-Type
header. -/
def addSupplierRequest (api companyId : String) : SentRequest :=
  ⟨"POST", api ++ "/companies/" ++ companyId ++ "/suppliers",
   [("Content-Type", "application/json")]⟩

/-! The login and registration flows of Auth.js. -/

/-- Whether a byte is left unescaped by encodeURIComponent: the ASCII
letters and digits and - _ . ! ~ * ( ) together with the apostrophe,
byte 39. -/
def isUnreservedByte (b : UInt8) : Bool :=
  let n := b.toNat
  (65 ≤ n && n ≤ 90) || (97 ≤ n && n ≤ 122) || (48 ≤ n && n ≤ 57) ||
  n == 45 || n == 95 || n == 46 || n == 33 || n == 126 || n == 42 ||
  n == 39 || n == 40 || n == 41

/-- Uppercase hexadecimal digit for a value below 16. -/
def hexDigitChar (n : Nat) : Char :=
  if n < 10 then Char.ofNat (48 + n) else Char.ofNat (55 + n)

/-- Percent-encoding of one byte, as %XY with uppercase hex digits. -/
def percentEncodeByte (b : UInt8) : String :=
  String.mk ['%', hexDigitChar (b.toNat / 16), hexDigitChar (b.toNat % 16)]

/-- JavaScript encodeURIComponent: every UTF-8 byte outside the unreserved
set is percent-encoded (all unreserved bytes are ASCII, so multi-byte
characters are escaped byte by byte). -/
def encodeURIComponent (s : String) : String :=
  String.join ((s.toUTF8.toList).map (fun b =>
    if isUnreservedByte b then String.mk [Char.ofNat b.toNat] else percentEncodeByte b))

/-- The login form state of Auth.js. -/
structure LoginForm where
  email : String
  password : String
deriving DecidableEq

/-- The request `handleLogin` issues (Auth.js lines 320-325): POST to
/api/auth/login with the credentials as URL-encoded query parameters. -/
def loginRequest (api : String) (d : LoginForm) : SentRequest :=
  ⟨"POST",
   api ++ "/auth/login?email=" ++ encodeURIComponent d.email ++
     "&password=" ++ encodeURIComponent d.password,
   [("Content-Type", "application/json")]⟩

/-- A response of the auth API as the handlers consume it: on ok the parsed
result payload, otherwise the optional detail field of the error body. -/
inductive AuthApiResponse (α : Type) where
  | ok (result : α)
  | err (detail : Option String)
deriving DecidableEq

/-- What an auth form handler does after the response: invoke onAuthSuccess
with the result, or display an error message. -/
inductive AuthOutcome (α : Type) where
  | success (result : α)
  | failure (message : String)
deriving DecidableEq

/-- Embeds the response handling of `handleLogin` (Auth.js lines 327-337):
exactly on an ok response the access_token, user and tenant are persisted
and onAuthSuccess is invoked; otherwise storage is untouched and the error
detail (or a generic message) is shown. -/
def handleLogin (st : Storage) (resp : AuthApiResponse AuthResult) :
    Storage × AuthOutcome AuthResult :=
  match resp with
  | .ok r =>
    ({ st with
        climabill_token := some r.access_token,
        climabill_user := some (.ofData r.user),
        climabill_tenant := some (.ofData r.tenant) },
     .success r)
  | .err detail => (st, .failure (jsOrString detail "Login failed"))

/-- The signup form state of Auth.js (lines 262-273): every input holds the
string typed into it; compliance_standards is the list of checked values. -/
structure SignupFormState where
  email : String
  password : String
  first_name : String
  last_name : String
  company_name : String
  industry : String
  employee_count : String
  annual_revenue : String
  headquarters_location : String
  compliance_standards : List String
deriving DecidableEq

/-- The request `handleSignup` issues (Auth.js lines 351-361): POST to
/api/auth/register; its JSON body is the signupData spread with the two
numeric fields parsed, embedded by `buildRegisterBody` below. -/
def registerRequest (api : String) : SentRequest :=
  ⟨"POST", api ++ "/auth/register", [("Content-Type", "application/json")]⟩

/-- The access_token, user, tenant and company payload returned by the
register endpoint; the company is abstracted by its id, the only field the
handler stores. -/
structure RegisterResult where
  access_token : String
  user : String
  tenant : String
  company_id : String
deriving DecidableEq

/-- Embeds the response handling of `handleSignup` (Auth.js lines 363-373):
exactly on an ok response the access_token, user, tenant and company id are
persisted and onAuthSuccess is invoked. -/
def handleSignup (st : Storage) (resp : AuthApiResponse RegisterResult) :
    Storage × AuthOutcome RegisterResult :=
  match resp with
  | .ok r =>
    ({ climabill_token := some r.access_token,
       climabill_user := some (.ofData r.user),
       climabill_tenant := some (.ofData r.tenant),
       climabill_company_id := some r.company_id },
     .success r)
  | .err detail => (st, .failure (jsOrString detail "Registration failed"))

/-! The emissions entry submission of EmissionsTracker.js. -/

/-- The `activity_data` map of the emissions form. Field values are the
strings held in form state: numeric ones are modelled by their parseFloat /
parseInt values, `none` standing for an absent or empty entry (falsy, so
the `|| default` fallback applies). -/
structure ActivityData where
  kwh_consumed : Option Rat
  region : Option String
  renewable_percentage : Option Rat
  fuel_type : Option String
  quantity : Option Rat
  unit : Option String
  transport_mode : Option String
  distance_km : Option Rat
  passengers : Option Int
  energy_consumed : Option Rat
deriving DecidableEq

/-- One element of the trips list posted for business travel. -/
structure Trip where
  transport_mode : String
  distance_km : Rat
  passengers : Int
deriving DecidableEq

/-- The calculationData object built by the first switch of
`handleCalculateEmissions` (EmissionsTracker.js lines 56-86); the default
branch builds an object with only kwh_consumed and region. -/
inductive CalcData where
  | electricity (kwh_consumed : Rat) (region : String) (renewable_percentage : Rat)
  | fuel (fuel_type : String) (quantity : Rat) (unit : String)
  | travel (trips : List Trip)
  | basic (kwh_consumed : Rat) (region : String)
deriving DecidableEq

/-- The trips field of a calculationData object (only the travel variant
carries one; the travel branch of the second switch is the only reader). -/
def CalcData.trips : CalcData → List Trip
  | .travel ts => ts
  | _ => []

/-- Embeds the first switch of `handleCalculateEmissions`
(EmissionsTracker.js lines 56-86), keyed on the selected source_type. -/
def buildCalculationData (sourceType : String) (a : ActivityData) : CalcData :=
  match sourceType with
  | "electricity" =>
    .electricity (a.kwh_consumed.getD 0) (a.region.getD "us_average")
      (a.renewable_percentage.getD 0)
  | "fuel" =>
    .fuel (a.fuel_type.getD "gasoline") (a.quantity.getD 0) (a.unit.getD "liters")
  | "travel" =>
    .travel [⟨a.transport_mode.getD "car_petrol", a.distance_km.getD 0,
              a.passengers.getD 1⟩]
  | _ => .basic (a.energy_consumed.getD 0) "us_average"

/-- The JSON body of the calculation request: the calculationData object
itself, or (for travel) the bare trips array. -/
inductive CalcBody where
  | obj (c : CalcData)
  | arr (trips : List Trip)
deriving DecidableEq

/-- Embeds the second switch of `handleCalculateEmissions`
(EmissionsTracker.js lines 89-108): endpoint and request body per
source_type, with travel posting calculationData.trips. -/
def calculationRequest (sourceType : String) (a : ActivityData) : String × CalcBody :=
  let calculationData := buildCalculationData sourceType a
  match sourceType with
  | "electricity" => ("/calculate/electricity", .obj calculationData)
  | "fuel" => ("/calculate/fuel", .obj calculationData)
  | "travel" => ("/calculate/travel", .arr calculationData.trips)
  | _ => ("/calculate/electricity", .obj calculationData)

/-- An emission source as the top-sources endpoint returns it, abstracted
by the only field the tracker uses. -/
structure EmissionSource where
  id : String
deriving DecidableEq

/-- The emissions form state (EmissionsTracker.js lines 13-19). -/
structure EmissionsForm where
  source_type : String
  period_start : String
  period_end : String
  activity_data : ActivityData
  data_quality : String
deriving DecidableEq

/-- The calculation response consumed when building the record: the
computed kilograms and the optional calculation_details.emission_factor. -/
structure CalculationResult where
  co2_equivalent_kg : Rat
  emission_factor : Option Rat
deriving DecidableEq

/-- The recordData object posted to the emissions endpoint
(EmissionsTracker.js lines 126-134). -/
structure EmissionRecordData where
  source_id : String
  period_start : String
  period_end : String
  co2_equivalent_kg : Rat
  activity_data : ActivityData
  emission_factor : Rat
  data_quality : String
deriving DecidableEq

/-- Embeds the source-id selection of EmissionsTracker.js line 123:
`emissionSources[0]?.id || "default-source-id"` (an absent first element,
and a falsy empty id, both select the fallback). -/
def chosenSourceId (emissionSources : List EmissionSource) : String :=
  jsOrString (emissionSources.head?.map EmissionSource.id) "default-source-id"

/-- Embeds the recordData construction of `handleCalculateEmissions`
(EmissionsTracker.js lines 122-134). -/
def buildEmissionRecord (emissionSources : List EmissionSource)
    (form : EmissionsForm) (calcResult : CalculationResult) : EmissionRecordData :=
  { source_id := chosenSourceId emissionSources,
    period_start := form.period_start,
    period_end := form.period_end,
    co2_equivalent_kg := calcResult.co2_equivalent_kg,
    activity_data := form.activity_data,
    emission_factor := calcResult.emission_factor.getD 0,
    data_quality := form.data_quality }

/-! JavaScript number arithmetic, for the parseInt / parseFloat calls of
the registration body and the unguarded ROI division of
FinancialImpact.js. Finite values are exact rationals; NaN and the two
infinities follow IEEE semantics for division and multiplication
(floating-point rounding, overflow of finite products, and signed zero are
outside the model). -/

/-- A JavaScript number: finite (exact), NaN, or an infinity. -/
inductive JsNum where
  | finite (q : Rat)
  | nan
  | posInf
  | negInf
deriving DecidableEq

/-- Whether a JavaScript number is finite (Number.isFinite). -/
def JsNum.isFinite : JsNum → Bool
  | .finite _ => true
  | _ => false

/-- JavaScript division: a nonzero finite value divided by zero gives a
signed infinity, zero by zero gives NaN. -/
def JsNum.div : JsNum → JsNum → JsNum
  | .finite a, .finite b =>
    if b = 0 then (if a = 0 then .nan else if 0 < a then .posInf else .negInf)
    else .finite (a / b)
  | .finite _, .posInf => .finite 0
  | .finite _, .negInf => .finite 0
  | .posInf, .finite b => if b < 0 then .negInf else .posInf
  | .negInf, .finite b => if b < 0 then .posInf else .negInf
  | .posInf, .posInf => .nan
  | .posInf, .negInf => .nan
  | .negInf, .posInf => .nan
  | .negInf, .negInf => .nan
  | .nan, _ => .nan
  | _, .nan => .nan

/-- JavaScript multiplication: an infinity times zero gives NaN, NaN
propagates. -/
def JsNum.mul : JsNum → JsNum → JsNum
  | .finite a, .finite b => .finite (a * b)
  | .finite a, .posInf => if a = 0 then .nan else if 0 < a then .posInf else .negInf
  | .finite a, .negInf => if a = 0 then .nan else if 0 < a then .negInf else .posInf
  | .posInf, .finite b => if b = 0 then .nan else if 0 < b then .posInf else .negInf
  | .negInf, .finite b => if b = 0 then .nan else if 0 < b then .negInf else .posInf
  | .posInf, .posInf => .posInf
  | .posInf, .negInf => .negInf
  | .negInf, .posInf => .negInf
  | .negInf, .negInf => .posInf
  | .nan, _ => .nan
  | _, .nan => .nan

/-- Longest leading run of decimal digits of a character list, with the
rest. -/
def digitSpan : List Char → List Char × List Char
  | [] => ([], [])
  | c :: rest =>
    if c.isDigit then
      let p := digitSpan rest
      (c :: p.1, p.2)
    else ([], c :: rest)

/-- Value of a run of decimal digits. -/
def digitsVal (ds : List Char) : Nat :=
  ds.foldl (fun a c => 10 * a + (c.toNat - 48)) 0

/-- JavaScript parseInt with no radix argument on decimal input: skip
leading whitespace, take an optional sign and the longest run of decimal
digits, and give NaN when no digit follows (so parsing stops at a decimal
point, truncating). The hexadecimal 0x form, which no app input produces,
is outside the model. -/
def jsParseInt (s : String) : JsNum :=
  let cs := s.data.dropWhile (fun c => c = ' ' || c = '\t' || c = '\n' || c = '\r')
  let (sgn, rest) : Int × List Char :=
    match cs with
    | '-' :: r => (-1, r)
    | '+' :: r => (1, r)
    | r => (1, r)
  let (ds, _) := digitSpan rest
  if ds.isEmpty then .nan else .finite ((sgn * (digitsVal ds : Int) : Int) : Rat)

/-- JavaScript parseFloat: skip leading whitespace, take an optional sign,
then either a literal Infinity or the longest decimal mantissa with an
optional exponent part (an e followed by no digit is not consumed); NaN
when no digit is found. The value is exact, per the JsNum convention. -/
def jsParseFloat (s : String) : JsNum :=
  let cs := s.data.dropWhile (fun c => c = ' ' || c = '\t' || c = '\n' || c = '\r')
  let (sgn, rest) : Rat × List Char :=
    match cs with
    | '-' :: r => (-1, r)
    | '+' :: r => (1, r)
    | r => (1, r)
  if rest.take 8 = "Infinity".data then
    (if sgn < 0 then .negInf else .posInf)
  else
    let (ip, r1) := digitSpan rest
    let (fp, r2) :=
      match r1 with
      | '.' :: r => digitSpan r
      | _ => ([], r1)
    if ip.isEmpty && fp.isEmpty then .nan
    else
      let mant : Rat := (digitsVal ip : Rat) + (digitsVal fp : Rat) / ((10 : Rat) ^ fp.length)
      let ex : Int :=
        match r2 with
        | 'e' :: r | 'E' :: r =>
          let (esgn, er) : Int × List Char :=
            match r with
            | '-' :: rr => (-1, rr)
            | '+' :: rr => (1, rr)
            | rr => (1, rr)
          let (eds, _) := digitSpan er
          if eds.isEmpty then 0 else esgn * (digitsVal eds : Int)
        | _ => 0
      let scale : Rat :=
        if 0 ≤ ex then (10 : Rat) ^ ex.toNat else 1 / (10 : Rat) ^ (-ex).toNat
      .finite (sgn * mant * scale)

/-- The JSON body `handleSignup` posts (Auth.js lines 356-360): the spread
of the signup form fields with employee_count replaced by its parseInt
value and annual_revenue by its parseFloat value. -/
structure RegisterBody where
  email : String
  password : String
  first_name : String
  last_name : String
  company_name : String
  industry : String
  employee_count : JsNum
  annual_revenue : JsNum
  headquarters_location : String
  compliance_standards : List String
deriving DecidableEq

/-- Embeds the body construction of `handleSignup` (Auth.js lines 356-360). -/
def buildRegisterBody (f : SignupFormState) : RegisterBody :=
  { email := f.email,
    password := f.password,
    first_name := f.first_name,
    last_name := f.last_name,
    company_name := f.company_name,
    industry := f.industry,
    employee_count := jsParseInt f.employee_count,
    annual_revenue := jsParseFloat f.annual_revenue,
    headquarters_location := f.headquarters_location,
    compliance_standards := f.compliance_standards }

/-- The add-initiative form state (FinancialImpact.js lines 14-22), with
each numeric text input modelled by the JavaScript number its parseFloat
call produces (NaN when the text does not parse). -/
structure InitiativeForm where
  initiative_name : String
  description : String
  implementation_cost : JsNum
  annual_savings : JsNum
  annual_co2_reduction : JsNum
  implementation_date : String
  status : String
deriving DecidableEq

/-- The JSON body `handleAddInitiative` posts (FinancialImpact.js lines
60-70). -/
structure InitiativeBody where
  company_id : String
  initiative_name : String
  description : String
  implementation_cost : JsNum
  annual_savings : JsNum
  annual_co2_reduction : JsNum
  roi_percentage : JsNum
  implementation_date : String
  status : String
deriving DecidableEq

/-- Embeds the body construction of `handleAddInitiative`
(FinancialImpact.js lines 60-70); roi_percentage is
(parseFloat(annual_savings) / parseFloat(implementation_cost)) * 100 with
no guard on the divisor. -/
def buildInitiativeBody (companyId : String) (f : InitiativeForm) : InitiativeBody :=
  { company_id := companyId,
    initiative_name := f.initiative_name,
    description := f.description,
    implementation_cost := f.implementation_cost,
    annual_savings := f.annual_savings,
    annual_co2_reduction := f.annual_co2_reduction,
    roi_percentage := (f.annual_savings.div f.implementation_cost).mul (.finite 100),
    implementation_date := f.implementation_date,
    status := f.status }

/-! The client as an event system: every code path that can write browser
storage, collected from AuthContext.js, Auth.js, the two App.js versions,
CompanySetup.js and Navbar.js, plus the response handling of the plain
domain fetches (which write no storage). -/

/-- One storage-relevant client event. -/
inductive ClientEvent where
  /-- Auth.handleLogin received an ok response (Auth.js lines 327-333),
  which also invokes onAuthSuccess and hence contextLogin. -/
  | loginSubmitOk (result : AuthResult)
  /-- Auth.handleLogin received an error response (Auth.js lines 334-337). -/
  | loginSubmitErr (detail : Option String)
  /-- Auth.handleSignup received an ok response (Auth.js lines 363-370);
  onAuthSuccess also stores the company id (App.js lines 47-55). -/
  | signupSubmitOk (result : RegisterResult)
  /-- Auth.handleSignup received an error response (Auth.js lines 371-374). -/
  | signupSubmitErr (detail : Option String)
  /-- The user clicked Sign Out (Navbar.js handleLogout, calling logout). -/
  | logoutClick
  /-- An authenticatedFetch call completed with the given response status
  (AuthContext.js lines 81-89). -/
  | authedFetchResponse (url : String) (status : Nat)
  /-- The AuthContext mount effect restored saved auth data
  (AuthContext.js lines 23-39). -/
  | mountRestore
  /-- App.fetchUserCompanies received the companies list (App.js lines
  30-36); with a nonempty list the first company id is stored. -/
  | companiesFetched (companyIds : List String)
  /-- Navbar.handleNewCompany removed the stored company id
  (pre-auth Navbar.js). -/
  | newCompanyClick
  /-- CompanySetup created a company and the pre-auth App stored its id. -/
  | companyCreated (companyId : String)
  /-- The pre-auth App failed to fetch the stored company and removed the
  stored id. -/
  | companyFetchFailed
  /-- A plain domain fetch (dashboard, emissions, initiatives, marketplace,
  suppliers, AI query) completed; those handlers only set component state. -/
  | plainFetchResponse (status : Nat)
deriving DecidableEq

/-- The storage and session transition each client event performs, each
case embedding the handler named in the documentation of the event. -/
def clientStep (e : ClientEvent) (p : Storage × Session) : Storage × Session :=
  match e with
  | .loginSubmitOk r =>
    let (st1, _) := handleLogin p.1 (.ok r)
    contextLogin st1 r
  | .loginSubmitErr detail => ((handleLogin p.1 (.err detail)).1, p.2)
  | .signupSubmitOk r =>
    let (st1, _) := handleSignup p.1 (.ok r)
    let (st2, s2) := contextLogin st1 ⟨r.access_token, r.user, r.tenant⟩
    ({ st2 with climabill_company_id := some r.company_id }, s2)
  | .signupSubmitErr detail => ((handleSignup p.1 (.err detail)).1, p.2)
  | .logoutClick => logout
  | .authedFetchResponse url status =>
    (authenticatedFetch p.1 p.2 url ⟨"GET", []⟩ status).2.2
  | .mountRestore => restoreAuth p.1 p.2
  | .companiesFetched companyIds =>
    match companyIds with
    | [] => p
    | id0 :: _ => ({ p.1 with climabill_company_id := some id0 }, p.2)
  | .newCompanyClick => ({ p.1 with climabill_company_id := none }, p.2)
  | .companyCreated companyId =>
    ({ p.1 with climabill_company_id := some companyId }, p.2)
  | .companyFetchFailed => ({ p.1 with climabill_company_id := none }, p.2)
  | .plainFetchResponse _ => p

/-- The persisted session state the lifecycle claim is about: the token,
user and tenant entries of browser storage. -/
def sessionPart (st : Storage) : Option String × Option StoredJson × Option StoredJson :=
  (st.climabill_token, st.climabill_user, st.climabill_tenant)

/-! The server-side request authorizer. The backend (server.py) is not in
the source tree, so this component is modelled from the specification
(sections 4.1, 4.2 and the data model) rather than translated from code. -/

/-- Modelled from the spec: the payload of the session credential, binding
a user id and tenant id with an expiry. -/
structure TokenPayload where
  user_id : String
  tenant_id : String
  expiry : Nat
deriving DecidableEq

/-- Modelled from the spec: a self-contained signed token; the signature is
a tag over the payload computed with the server-held secret. -/
structure SignedToken where
  payload : TokenPayload
  sig : String
deriving DecidableEq

/-- Modelled from the spec: the signing function of the token issuer,
injective in the payload for a fixed secret. -/
def signPayload (secret : String) (p : TokenPayload) : String :=
  secret ++ "|" ++ p.user_id ++ "|" ++ p.tenant_id ++ "|" ++ toString p.expiry

/-- Modelled from the spec: token verification fails uniformly when the
signature does not match or the current time exceeds the expiry, and
otherwise yields the payload. -/
def verifyToken (secret : String) (now : Nat) (t : SignedToken) : Option TokenPayload :=
  if t.sig = signPayload secret t.payload ∧ now ≤ t.payload.expiry then
    some t.payload
  else none

/-- Modelled from the spec: a tenant-owned domain record, carrying its
tenant id. -/
structure DomainRecord where
  id : String
  tenant_id : String
deriving DecidableEq

/-- Modelled from the spec: the domain operation a request asks for; a
create carries a client-claimed tenant id in its body, which the service
must ignore in favor of the authorizer-resolved one. -/
inductive DomainOp where
  | list
  | create (id : String) (claimedTenant : String)
deriving DecidableEq

/-- Modelled from the spec: an incoming tenant-scoped API request — the
bearer credential extracted from the Authorization header (none when the
header is missing), the explicit company identifier in the path if any,
and the requested operation. -/
structure ApiRequest where
  bearer : Option SignedToken
  pathCompanyId : Option String
  op : DomainOp
deriving DecidableEq

/-- The error taxonomy of the authorizer. -/
inductive AuthError where
  | unauthenticated
  | forbidden
  | notFound
deriving DecidableEq

/-- The identity the authorizer attaches to the request context. -/
structure AuthCtx where
  user_id : String
  tenant_id : String
deriving DecidableEq

/-- Modelled from the spec (section 4.2): extract the bearer credential
(missing gives Unauthenticated), verify it (invalid or expired gives
Unauthenticated), resolve the tenant, and compare any explicit path company
id against it (mismatch gives Forbidden). -/
def authorize (secret : String) (now : Nat) (req : ApiRequest) :
    Except AuthError AuthCtx :=
  match req.bearer with
  | none => .error .unauthenticated
  | some tok =>
    match verifyToken secret now tok with
    | none => .error .unauthenticated
    | some p =>
      match req.pathCompanyId with
      | some cid =>
        if cid = p.tenant_id then .ok ⟨p.user_id, p.tenant_id⟩
        else .error .forbidden
      | none => .ok ⟨p.user_id, p.tenant_id⟩

/-- Modelled from the spec (section 4.2 step 5): the domain service scopes
every read by the resolved tenant id and stamps every created record with
it, never with a client-supplied identifier. Returns the records given to
the caller and the store after the operation. -/
def domainService (ctx : AuthCtx) (op : DomainOp) (db : List DomainRecord) :
    List DomainRecord × List DomainRecord :=
  match op with
  | .list => (db.filter (fun r => r.tenant_id = ctx.tenant_id), db)
  | .create id _claimed =>
    let r : DomainRecord := ⟨id, ctx.tenant_id⟩
    ([r], db ++ [r])

/-- The observable result of processing one request. -/
structure RunResult where
  result : Except AuthError (List DomainRecord)
  store : List DomainRecord
  serviceInvoked : Bool

/-- Modelled from the spec: a request is processed by running the
authorizer and, only on success, forwarding to the domain service with the
resolved identity. -/
def runRequest (secret : String) (now : Nat) (db : List DomainRecord)
    (req : ApiRequest) : RunResult :=
  match authorize secret now req with
  | .error e => ⟨.error e, db, false⟩
  | .ok ctx =>
    let (out, db2) := domainService ctx req.op db
    ⟨.ok out, db2, true⟩

/-! Theorems. Each claim of the specification review is settled by exactly
one theorem below, with a witness instantiation when the theorem carries
hypotheses. -/

/-- C10: authenticatedFetch requires a present token: whenever the stored
token is null it throws "No authentication token available" without issuing
any request, and storage and session are unchanged. -/
theorem c10_no_token_throws (st : Storage) (s : Session) (url : String)
    (opts : FetchOptions) (respStatus : Nat) (h : s.token = none) :
    authenticatedFetch st s url opts respStatus =
      (none, .thrown "No authentication token available", st, s) := by
  simp [authenticatedFetch, h]

/-- Witness for C10 at the null session and a concrete call. -/
theorem c10_witness :
    authenticatedFetch emptyStorage nullSession "/api/companies" ⟨"GET", []⟩ 200 =
      (none, .thrown "No authentication token available", emptyStorage, nullSession) :=
  c10_no_token_throws emptyStorage nullSession "/api/companies" ⟨"GET", []⟩ 200 rfl

/-- C3: a 401 response to an authenticated call, like an explicit logout,
clears the entire persisted session state: all four localStorage entries
are removed and the in-memory token, user and tenant are reset to null. -/
theorem c3_401_clears_session (st : Storage) (s : Session) (tok url : String)
    (opts : FetchOptions) (h : s.token = some tok) :
    (authenticatedFetch st s url opts 401).2 =
      (.thrown "Authentication expired", emptyStorage, nullSession)
    ∧ logout = (emptyStorage, nullSession)
    ∧ emptyStorage.climabill_token = none ∧ emptyStorage.climabill_user = none
    ∧ emptyStorage.climabill_tenant = none ∧ emptyStorage.climabill_company_id = none
    ∧ nullSession.token = none ∧ nullSession.user = none ∧ nullSession.tenant = none := by
  refine ⟨?_, rfl, rfl, rfl, rfl, rfl, rfl, rfl, rfl⟩
  simp [authenticatedFetch, h, logout]

/-- Witness for C3 at a concrete logged-in state. -/
theorem c3_witness :
    (authenticatedFetch ⟨some "tok", none, none, none⟩ ⟨some "tok", none, none⟩
        "/api/companies" ⟨"GET", []⟩ 401).2 =
      (.thrown "Authentication expired", emptyStorage, nullSession) :=
  (c3_401_clears_session ⟨some "tok", none, none, none⟩ ⟨some "tok", none, none⟩
    "tok" "/api/companies" ⟨"GET", []⟩ rfl).1

/-- Counterexample to C2 as stated: the dashboard-data request the client
emits after login (Dashboard.js line 19) carries no Authorization header at
all, so not every authenticated API call carries the bearer token. -/
theorem c2_counterexample :
    (dashboardRequest "/api" "alpha").headers.lookup "Authorization" = none ∧
    (dashboardRequest "/api" "alpha").headers = [] := by
  exact ⟨rfl, rfl⟩

/-- C2 (amended): only the calls routed through authenticatedFetch — the
companies-list fetch — carry an Authorization Bearer header with the stored
token; the dashboard, emissions, initiatives, marketplace and supplier
requests are issued by plain fetch with no Authorization header. -/
theorem c2_amended_bearer_only_on_authenticated_fetch (st : Storage) (s : Session)
    (tok : String) (hs : s.token = some tok) (api cid : String) (status : Nat) :
    ((authenticatedFetch st s (api ++ "/companies") ⟨"GET", []⟩ status).1.map
      (fun r => r.headers.lookup "Authorization")) = some (some ("Bearer " ++ tok))
    ∧ (dashboardRequest api cid).headers.lookup "Authorization" = none
    ∧ (addEmissionRequest api cid).headers.lookup "Authorization" = none
    ∧ (addInitiativeRequest api cid).headers.lookup "Authorization" = none
    ∧ (purchaseRequest api).headers.lookup "Authorization" = none
    ∧ (addSupplierRequest api cid).headers.lookup "Authorization" = none := by
  refine ⟨?_, rfl, rfl, rfl, rfl, rfl⟩
  by_cases h401 : status = 401 <;> simp [authenticatedFetch, hs, h401, List.lookup]

/-- Witness for C2 (amended) at a concrete logged-in state. -/
theorem c2_amended_witness :
    ((authenticatedFetch ⟨some "tok", none, none, none⟩ ⟨some "tok", none, none⟩
        ("" ++ "/companies") ⟨"GET", []⟩ 200).1.map
      (fun r => r.headers.lookup "Authorization")) = some (some ("Bearer " ++ "tok")) :=
  (c2_amended_bearer_only_on_authenticated_fetch ⟨some "tok", none, none, none⟩
    ⟨some "tok", none, none⟩ "tok" rfl "" "alpha" 200).1

/-- C5: the calculation request is dispatched purely by source_type:
electricity, fuel and travel post their own field sets to their own
endpoints (travel posting a one-element trips list), and the remaining
source types (office, digital) post kwh_consumed taken from energy_consumed
with region us_average to the electricity endpoint; missing numeric fields
default to 0 and passengers to 1. -/
theorem c5_calculation_dispatch (a : ActivityData) :
    calculationRequest "electricity" a = ("/calculate/electricity",
      .obj (.electricity (a.kwh_consumed.getD 0) (a.region.getD "us_average")
        (a.renewable_percentage.getD 0)))
    ∧ calculationRequest "fuel" a = ("/calculate/fuel",
      .obj (.fuel (a.fuel_type.getD "gasoline") (a.quantity.getD 0)
        (a.unit.getD "liters")))
    ∧ calculationRequest "travel" a = ("/calculate/travel",
      .arr [⟨a.transport_mode.getD "car_petrol", a.distance_km.getD 0,
        a.passengers.getD 1⟩])
    ∧ calculationRequest "office" a = ("/calculate/electricity",
      .obj (.basic (a.energy_consumed.getD 0) "us_average"))
    ∧ calculationRequest "digital" a = ("/calculate/electricity",
      .obj (.basic (a.energy_consumed.getD 0) "us_average")) :=
  ⟨rfl, rfl, rfl, rfl, rfl⟩

/-- C6: login posts to /api/auth/login with the URL-encoded credentials as
query parameters; exactly on an ok response the returned access_token, user
and tenant are persisted and success is signalled, and on an error response
nothing is stored and the error detail (or a generic message) is surfaced. -/
theorem c6_login_flow (api : String) (d : LoginForm) (st : Storage) :
    loginRequest api d = ⟨"POST",
      api ++ "/auth/login?email=" ++ encodeURIComponent d.email ++
        "&password=" ++ encodeURIComponent d.password,
      [("Content-Type", "application/json")]⟩
    ∧ (∀ r : AuthResult, handleLogin st (.ok r) =
        (⟨some r.access_token, some (.ofData r.user), some (.ofData r.tenant),
          st.climabill_company_id⟩, .success r))
    ∧ (∀ detail, handleLogin st (.err detail) =
        (st, .failure (jsOrString detail "Login failed"))) :=
  ⟨rfl, fun _ => rfl, fun _ => rfl⟩

/-- C7: registration posts to /api/auth/register; its body is the combined
user and company fields of the signup form, with employee_count replaced by
its parseInt value and annual_revenue by its parseFloat value (illustrated
on the placeholder inputs 50 and 1000000.50); and exactly on an ok response
the returned access_token, user, tenant and company id are persisted and
success is signalled. -/
theorem c7_register_flow (api : String) (st : Storage) :
    registerRequest api = ⟨"POST", api ++ "/auth/register",
      [("Content-Type", "application/json")]⟩
    ∧ (∀ f : SignupFormState, buildRegisterBody f =
        ⟨f.email, f.password, f.first_name, f.last_name, f.company_name,
          f.industry, jsParseInt f.employee_count, jsParseFloat f.annual_revenue,
          f.headquarters_location, f.compliance_standards⟩)
    ∧ jsParseInt "50" = .finite 50
    ∧ jsParseFloat "1000000.50" = .finite (1000000 + 1 / 2)
    ∧ (∀ r : RegisterResult, handleSignup st (.ok r) =
        (⟨some r.access_token, some (.ofData r.user), some (.ofData r.tenant),
          some r.company_id⟩, .success r))
    ∧ (∀ detail, handleSignup st (.err detail) =
        (st, .failure (jsOrString detail "Registration failed"))) := by
  refine ⟨rfl, fun _ => rfl, by decide, ?_, fun _ => rfl, fun _ => rfl⟩
  simp +decide [jsParseFloat, digitSpan, digitsVal]
  norm_num

/-- Counterexample to C9 as stated: with a nonempty top-sources list whose
first element has the (falsy) empty id, the posted source_id is the
fallback "default-source-id", not emissionSources[0].id. -/
theorem c9_counterexample :
    (buildEmissionRecord [⟨""⟩]
        ⟨"electricity", "2025-01-01", "2025-01-02",
          ⟨none, none, none, none, none, none, none, none, none, none⟩,
          "estimated"⟩
        ⟨10, none⟩).source_id = "default-source-id"
    ∧ EmissionSource.id ⟨""⟩ = ""
    ∧ ("default-source-id" : String) ≠ "" := by
  exact ⟨rfl, rfl, by decide⟩

/-- C9 (amended): every emission record is attributed to the first element
of the previously fetched top-sources list — the posted source_id equals
the first source id when the list is nonempty and that id is a non-empty
string, and the literal "default-source-id" when the list is empty or the
first id is empty — independent of the source_type selected in the form
(the form is universally quantified and absent from the right-hand side). -/
theorem c9_amended_source_attribution (emissionSources : List EmissionSource)
    (form : EmissionsForm) (calcResult : CalculationResult) :
    (buildEmissionRecord emissionSources form calcResult).source_id =
      (match emissionSources.head? with
       | none => "default-source-id"
       | some s => if s.id = "" then "default-source-id" else s.id) := by
  cases emissionSources with
  | nil => rfl
  | cons s rest => simp [buildEmissionRecord, chosenSourceId, jsOrString]

/-- C8: the posted roi_percentage is (annual_savings / implementation_cost)
* 100 with no guard on the divisor, and (in the exact-arithmetic model) the
posted value is finite exactly when the entered implementation_cost parses
to a non-zero number, given that both entries parse to finite numbers. -/
theorem c8_roi_unguarded_division (cid : String) (f : InitiativeForm) (qs qc : Rat)
    (hs : f.annual_savings = .finite qs) (hc : f.implementation_cost = .finite qc) :
    (buildInitiativeBody cid f).roi_percentage =
      ((JsNum.finite qs).div (.finite qc)).mul (.finite 100)
    ∧ ((buildInitiativeBody cid f).roi_percentage.isFinite = true ↔ qc ≠ 0) := by
  have h1 : (buildInitiativeBody cid f).roi_percentage =
      ((JsNum.finite qs).div (.finite qc)).mul (.finite 100) := by
    simp [buildInitiativeBody, hs, hc]
  refine ⟨h1, ?_⟩
  rw [h1]
  by_cases h0 : qc = 0
  · subst h0
    by_cases hqs : qs = 0
    · subst hqs; simp [JsNum.div, JsNum.mul, JsNum.isFinite]
    · by_cases hpos : 0 < qs
      · simp [JsNum.div, JsNum.mul, JsNum.isFinite, hqs, hpos]
      · simp [JsNum.div, JsNum.mul, JsNum.isFinite, hqs, hpos]
  · simp [JsNum.div, JsNum.mul, JsNum.isFinite, h0]

/-- Witness for C8: savings 5 and cost 2 give a finite posted value. -/
theorem c8_witness :
    (buildInitiativeBody "c"
        ⟨"LED retrofit", "swap lighting", .finite 2, .finite 5, .finite 1,
          "2025-01-01", "planned"⟩).roi_percentage =
      ((JsNum.finite 5).div (.finite 2)).mul (.finite 100)
    ∧ ((buildInitiativeBody "c"
        ⟨"LED retrofit", "swap lighting", .finite 2, .finite 5, .finite 1,
          "2025-01-01", "planned"⟩).roi_percentage.isFinite = true ↔ (2 : Rat) ≠ 0) :=
  c8_roi_unguarded_division "c"
    ⟨"LED retrofit", "swap lighting", .finite 2, .finite 5, .finite 1,
      "2025-01-01", "planned"⟩ 5 2 rfl rfl

/-- Counterexample to C4 as stated: the mount-time restore effect is a
third writer of the persisted session state — with a stored token and a
malformed stored user it clears the entries although neither a login, a
registration, a logout nor a 401 occurred. -/
theorem c4_counterexample :
    sessionPart (clientStep .mountRestore
        (⟨some "t", some (.malformed "x"), some (.ofData "te"), none⟩,
          nullSession)).1 ≠
      sessionPart ⟨some "t", some (.malformed "x"), some (.ofData "te"), none⟩
    ∧ (ClientEvent.mountRestore ≠ .logoutClick
        ∧ ∀ url status, ClientEvent.mountRestore ≠ .authedFetchResponse url status) := by
  refine ⟨by decide, by decide, fun url status => by simp⟩

/-- C4 (amended): the persisted session state (the token, user and tenant
entries of browser storage) is written only on login success, registration
success, explicit logout, a 401 response to an authenticatedFetch call, or
by the mount-time restore effect — and in the last case the write is the
clearing performed by the caught parse failure. -/
theorem c4_amended_session_writers (e : ClientEvent) (st : Storage) (s : Session)
    (hwrite : sessionPart (clientStep e (st, s)).1 ≠ sessionPart st) :
    (∃ r, e = .loginSubmitOk r) ∨ (∃ r, e = .signupSubmitOk r) ∨
    e = .logoutClick ∨ (∃ url, e = .authedFetchResponse url 401) ∨
    (e = .mountRestore ∧ (clientStep e (st, s)).1 = emptyStorage) := by
  cases e with
  | loginSubmitOk r => exact Or.inl ⟨r, rfl⟩
  | loginSubmitErr detail => exact absurd rfl hwrite
  | signupSubmitOk r => exact Or.inr (Or.inl ⟨r, rfl⟩)
  | signupSubmitErr detail => exact absurd rfl hwrite
  | logoutClick => exact Or.inr (Or.inr (Or.inl rfl))
  | authedFetchResponse url status =>
    cases hs : s.token with
    | none =>
      exfalso
      apply hwrite
      simp [clientStep, authenticatedFetch, hs]
    | some tok =>
      by_cases h401 : status = 401
      · subst h401
        exact Or.inr (Or.inr (Or.inr (Or.inl ⟨url, rfl⟩)))
      · exfalso
        apply hwrite
        simp [clientStep, authenticatedFetch, hs, h401]
  | mountRestore =>
    refine Or.inr (Or.inr (Or.inr (Or.inr ⟨rfl, ?_⟩)))
    simp only [clientStep] at hwrite ⊢
    unfold restoreAuth at hwrite ⊢
    cases ht : st.climabill_token with
    | none => simp [ht] at hwrite
    | some t =>
      cases hu : st.climabill_user with
      | none => simp [ht, hu] at hwrite
      | some u =>
        cases hte : st.climabill_tenant with
        | none => simp [ht, hu, hte] at hwrite
        | some te =>
          simp only [ht, hu, hte] at hwrite ⊢
          by_cases htr : (t != "" && u.jsTruthy && te.jsTruthy) = true
          · rw [if_pos htr] at hwrite ⊢
            cases hpu : parseJson u with
            | none => cases hpte : parseJson te <;> simp [hpu, hpte, logout]
            | some uo =>
              cases hpte : parseJson te with
              | none => simp [hpu, hpte, logout]
              | some teo => simp [hpu, hpte, sessionPart, ht, hu, hte] at hwrite
          · rw [if_neg htr] at hwrite
            exact absurd rfl hwrite
  | companiesFetched companyIds =>
    cases companyIds with
    | nil => exact absurd rfl hwrite
    | cons id0 rest => exact absurd rfl hwrite
  | newCompanyClick => exact absurd rfl hwrite
  | companyCreated companyId => exact absurd rfl hwrite
  | companyFetchFailed => exact absurd rfl hwrite
  | plainFetchResponse status => exact absurd rfl hwrite

/-- Witness for C4 (amended): an explicit logout from a logged-in storage
changes the persisted session state and lands in the permitted writer set. -/
theorem c4_amended_witness :
    (∃ r, ClientEvent.logoutClick = .loginSubmitOk r) ∨
    (∃ r, ClientEvent.logoutClick = .signupSubmitOk r) ∨
    ClientEvent.logoutClick = .logoutClick ∨
    (∃ url, ClientEvent.logoutClick = .authedFetchResponse url 401) ∨
    (ClientEvent.logoutClick = .mountRestore ∧
      (clientStep .logoutClick (⟨some "t", none, none, none⟩, nullSession)).1 =
        emptyStorage) :=
  c4_amended_session_writers .logoutClick ⟨some "t", none, none, none⟩ nullSession
    (by decide)

/-- C1: for every request whose path names a company identifier different
from the tenant bound by the presented credential, the authorizer (modelled
from the spec, the backend being absent from the source tree) rejects with
Forbidden and the domain service never runs; and for every request whose
credential verifies, all records returned and all records ever written are
scoped to the tenant id of the credential, whatever identifiers appear in the
path or body. -/
theorem c1_cross_tenant_isolation (secret : String) (now : Nat) (req : ApiRequest)
    (a : String) (tok : SignedToken) (p : TokenPayload)
    (hpath : req.pathCompanyId = some a)
    (hbearer : req.bearer = some tok)
    (hver : verifyToken secret now tok = some p)
    (hne : p.tenant_id ≠ a) :
    authorize secret now req = .error .forbidden
    ∧ (∀ db : List DomainRecord, (runRequest secret now db req).serviceInvoked = false)
    ∧ (∀ (r2 : ApiRequest) (db : List DomainRecord) (t2 : SignedToken)
        (p2 : TokenPayload) (out : List DomainRecord),
        r2.bearer = some t2 → verifyToken secret now t2 = some p2 →
        (runRequest secret now db r2).result = .ok out →
        (∀ rec ∈ out, rec.tenant_id = p2.tenant_id) ∧
        (∀ rec ∈ (runRequest secret now db r2).store,
          rec ∈ db ∨ rec.tenant_id = p2.tenant_id)) := by
  have hauth : authorize secret now req = .error .forbidden := by
    simp only [authorize, hbearer, hver, hpath]
    rw [if_neg (fun h => hne h.symm)]
  refine ⟨hauth, ?_, ?_⟩
  · intro db
    simp [runRequest, hauth]
  · intro r2 db t2 p2 out hb2 hv2 hres
    have hctx : ∀ ctx, authorize secret now r2 = .ok ctx → ctx.tenant_id = p2.tenant_id := by
      intro ctx hok
      simp only [authorize, hb2, hv2] at hok
      split at hok
      · split at hok
        · cases hok; rfl
        · cases hok
      · cases hok; rfl
    cases hrun : authorize secret now r2 with
    | error e =>
      exfalso
      simp only [runRequest, hrun] at hres
      cases hres
    | ok ctx =>
      have htid := hctx ctx hrun
      cases hop : r2.op with
      | list =>
        simp only [runRequest, hrun, hop, domainService] at hres ⊢
        cases hres
        constructor
        · intro rec hrec
          have hmem := List.mem_filter.mp hrec
          have h2 := of_decide_eq_true hmem.2
          rw [h2, htid]
        · intro rec hrec
          exact Or.inl hrec
      | create rid claimed =>
        simp only [runRequest, hrun, hop, domainService] at hres ⊢
        cases hres
        constructor
        · intro rec hrec
          rw [List.mem_singleton.mp hrec]
          exact htid
        · intro rec hrec
          rcases List.mem_append.mp hrec with h | h
          · exact Or.inl h
          · rw [List.mem_singleton.mp h]
            exact Or.inr htid

/-- Witness for C1: a credential for tenantB used against a path naming
tenantA is rejected with Forbidden. -/
theorem c1_witness :
    authorize "secret" 0
      ⟨some ⟨⟨"u", "tenantB", 10⟩, signPayload "secret" ⟨"u", "tenantB", 10⟩⟩,
        some "tenantA", .list⟩ = .error .forbidden :=
  (c1_cross_tenant_isolation "secret" 0
    ⟨some ⟨⟨"u", "tenantB", 10⟩, signPayload "secret" ⟨"u", "tenantB", 10⟩⟩,
      some "tenantA", .list⟩
    "tenantA" ⟨⟨"u", "tenantB", 10⟩, signPayload "secret" ⟨"u", "tenantB", 10⟩⟩
    ⟨"u", "tenantB", 10⟩ rfl rfl
    (by simp [verifyToken]) (by decide)).1

end ClimaBill
